import Mathlib

/-!
Verification of the Iris-classifier FastAPI service (`app/api.py`).

The service keeps a global list of model wrappers (`model_wrappers_list`),
populated at startup by unpickling every `.pkl` file in the models
directory, and exposes three endpoints (`GET /`, `GET /models`,
`POST /models/{type}`), each wrapped by the `construct_response`
decorator that builds a uniform JSON envelope.

The embedding below passes the registry state explicitly, represents
Python dicts used as JSON responses by ordered association lists
(Python dicts preserve insertion order), and represents a Python
exception escaping a handler by the `Except.error` branch.
-/

namespace IrisApi

/-- A JSON-like value, covering everything the service puts in responses. -/
inductive Json where
  | str (s : String)
  | int (n : Int)
  | rat (q : Rat)
  | arr (xs : List Json)
  | obj (fields : List (String × Json))

/-- An unhandled Python exception escaping a handler. -/
inductive PyError where
  /-- `prediction[0]` on an empty result: `IndexError`. -/
  | indexError
  /-- `IrisType(prediction)` on an index outside the enumeration: `ValueError`. -/
  | valueError
  /-- The underlying model's `predict` call itself raised. -/
  | inferenceError (msg : String)
  deriving Repr, DecidableEq

/-- Modelled from the spec: `PredictPayload` from `app.schemas` (the file is not
under `src/`); §3 gives it as
`{ sepal_length: float, sepal_width: float, petal_length: float, petal_width: float }`.
Scalars are embedded as `Rat`; the service never computes with them, it only
passes them through. -/
structure PredictPayload where
  sepal_length : Rat
  sepal_width : Rat
  petal_length : Rat
  petal_width : Rat
  deriving Repr, DecidableEq

/-- Modelled from the spec: `IrisType` from `app.schemas` (the file is not under
`src/`); the spec describes it as the fixed enumeration mapping a species index
to a species name.  `IrisType(i).name` succeeds exactly on the members of the
enumeration; on any other index the constructor raises `ValueError`, which this
function signals with `none`. -/
def irisTypeName (i : Int) : Option String :=
  if i = 0 then some "setosa"
  else if i = 1 then some "versicolor"
  else if i = 2 then some "virginica"
  else none

/-- The fixed species-label enumeration of `IrisType`. -/
def irisLabels : List String := ["setosa", "versicolor", "virginica"]

/-- A model bundle as loaded from a `.pkl` file: a dict with keys `type`,
`model`, `params`, `metrics`.  The classifier object is opaque; its
`predict` method takes a 2D feature array and either returns an output
array or raises. -/
structure ModelWrapper where
  type : String
  model : List (List Rat) → Except PyError (List Int)
  params : Json
  metrics : Json

/-- An incoming HTTP request, as far as `construct_response` reads it:
`request.method` and `request.url._url`. -/
structure Request where
  method : String
  url : String
  deriving Repr, DecidableEq

/-- The raw dict a handler body returns: `message`, `status-code`, and an
optional `data` entry (`"data" in results`). -/
structure HandlerOutput where
  message : String
  statusCode : Nat
  data : Option Json

/-- The decorator `construct_response`: calls the wrapped handler, then builds
the envelope dict with keys `message`, `method`, `status-code`, `timestamp`,
`url` in that order, appending `data` exactly when the handler's result has a
`data` key.  `now` stands for `datetime.now().isoformat()`.  An exception
raised by the handler propagates. -/
def construct_response (f : Request → Except PyError HandlerOutput)
    (request : Request) (now : String) : Except PyError (List (String × Json)) :=
  match f request with
  | .error e => .error e
  | .ok results =>
    let response := [
      ("message", Json.str results.message),
      ("method", Json.str request.method),
      ("status-code", Json.int results.statusCode),
      ("timestamp", Json.str now),
      ("url", Json.str request.url)]
    match results.data with
    | some d => .ok (response ++ [("data", d)])
    | none => .ok response

/-- Access a key of a response dict (keys are unique in every dict the
service builds). -/
def lookupKey (xs : List (String × Json)) (k : String) : Option Json :=
  (xs.find? (fun p => p.1 == k)).map (fun p => p.2)

/-- The key list of a response dict. -/
def keysOf (xs : List (String × Json)) : List String := xs.map (fun p => p.1)

/-- Handler body of `GET /` (`_index`). -/
def _index (_request : Request) : Except PyError HandlerOutput :=
  .ok { message := "OK"
        statusCode := 200
        data := some (Json.obj
          [("message", Json.str "Welcome to IRIS classifier! Please, read the `/docs`!")]) }

/-- Projection of a loaded bundle performed by `_get_models_list`:
`{"type": ..., "parameters": model["params"], "accuracy": model["metrics"]}`. -/
def projectModel (m : ModelWrapper) : Json :=
  Json.obj [("type", Json.str m.type), ("parameters", m.params), ("accuracy", m.metrics)]

/-- Handler body of `GET /models` (`_get_models_list`): projects every wrapper
in the registry, in order. -/
def _get_models_list (registry : List ModelWrapper) (_request : Request) :
    Except PyError HandlerOutput :=
  .ok { message := "OK"
        statusCode := 200
        data := some (Json.arr (registry.map projectModel)) }

/-- The lookup on line 128 of `api.py`:
`next((m for m in model_wrappers_list if m["type"] == type), None)` —
first wrapper whose `type` equals the requested one, `None` otherwise. -/
def findModel (registry : List ModelWrapper) (type : String) : Option ModelWrapper :=
  registry.find? (fun m => m.type == type)

/-- The 2D feature array `[[sepal_length, sepal_width, petal_length, petal_width]]`. -/
def featuresOf (payload : PredictPayload) : List (List Rat) :=
  [[payload.sepal_length, payload.sepal_width, payload.petal_length, payload.petal_width]]

/-- The `features` echo object placed in the prediction response data. -/
def featuresEcho (payload : PredictPayload) : Json :=
  Json.obj [
    ("sepal_length", Json.rat payload.sepal_length),
    ("sepal_width", Json.rat payload.sepal_width),
    ("petal_length", Json.rat payload.petal_length),
    ("petal_width", Json.rat payload.petal_width)]

/-- Handler body of `POST /models/{type}` (`_predict`).  On a found wrapper it
runs the classifier, takes `int(prediction[0])`, maps it through
`IrisType(...).name`, and returns the OK envelope contents; an empty output
array or an index outside the enumeration raises.  On no match it returns the
`"Model not found"` / 400 result with no `data` key. -/
def _predict (registry : List ModelWrapper) (_request : Request)
    (type : String) (payload : PredictPayload) : Except PyError HandlerOutput :=
  match findModel registry type with
  | some model_wrapper =>
    match model_wrapper.model (featuresOf payload) with
    | .error e => .error e
    | .ok prediction =>
      match prediction with
      | [] => .error .indexError
      | p :: _ =>
        match irisTypeName p with
        | none => .error .valueError
        | some predicted_type =>
          .ok { message := "OK"
                statusCode := 200
                data := some (Json.obj [
                  ("model-type", Json.str model_wrapper.type),
                  ("features", featuresEcho payload),
                  ("prediction", Json.int p),
                  ("predicted_type", Json.str predicted_type)]) }
  | none =>
    .ok { message := "Model not found"
          statusCode := 400
          data := none }

/-- `GET /` as served: handler wrapped by `construct_response`. -/
def indexEndpoint (request : Request) (now : String) :
    Except PyError (List (String × Json)) :=
  construct_response _index request now

/-- `GET /models` as served: handler wrapped by `construct_response`. -/
def modelsEndpoint (registry : List ModelWrapper) (request : Request) (now : String) :
    Except PyError (List (String × Json)) :=
  construct_response (_get_models_list registry) request now

/-- `POST /models/{type}` as served: handler wrapped by `construct_response`. -/
def predictEndpoint (registry : List ModelWrapper) (request : Request)
    (type : String) (payload : PredictPayload) (now : String) :
    Except PyError (List (String × Json)) :=
  construct_response (fun r => _predict registry r type payload) request now

/-- A single deserialized-or-failed `.pkl` file handed to the startup loop:
`pickle.load` either yields a wrapper or raises. -/
abbrev LoadResult := Except String ModelWrapper

/-- The startup loop of `lifespan`: for each file, unpickle and append to the
list; a deserialization error propagates immediately (there is no
`try`/`except` around the loop), so no `.ok` result is produced from a list
containing a bad file. -/
def lifespanLoad (st : List ModelWrapper) : List LoadResult →
    Except String (List ModelWrapper)
  | [] => .ok st
  | f :: rest =>
    match f with
    | .error e => .error e
    | .ok w => lifespanLoad (st ++ [w]) rest

/-- The shutdown step of `lifespan`: `model_wrappers_list.clear()`. -/
def lifespanClear (_st : List ModelWrapper) : List ModelWrapper := []

/-- One incoming call during the serving phase. -/
inductive ApiCall where
  | index (request : Request) (now : String)
  | getModels (request : Request) (now : String)
  | predict (request : Request) (type : String) (payload : PredictPayload) (now : String)

/-- Serve one call: the handlers only read `model_wrappers_list` (iteration in
`_get_models_list`, `next(...)` in `_predict`); none of their bodies contains
an append, removal or item assignment, so the state they leave behind is the
state they received. -/
def serveOne (st : List ModelWrapper) :
    ApiCall → List ModelWrapper × Except PyError (List (String × Json))
  | .index request now => (st, indexEndpoint request now)
  | .getModels request now => (st, modelsEndpoint st request now)
  | .predict request type payload now => (st, predictEndpoint st request type payload now)

/-- Serve a whole sequence of calls, threading the registry state. -/
def serveAll (st : List ModelWrapper) :
    List ApiCall → List ModelWrapper × List (Except PyError (List (String × Json)))
  | [] => (st, [])
  | c :: cs =>
    let (st', r) := serveOne st c
    let (st'', rs) := serveAll st' cs
    (st'', r :: rs)

/-! ## Helper lemmas and demonstration values -/

/-- Whenever `IrisType(i).name` succeeds, the name is one of the three
species labels of the enumeration. -/
theorem irisTypeName_mem_irisLabels {i : Int} {s : String}
    (h : irisTypeName i = some s) : s ∈ irisLabels := by
  unfold irisTypeName at h
  split_ifs at h <;> simp_all [irisLabels]

/-- A concrete bundle used to instantiate hypotheses: a classifier that
always answers class 0. -/
def demoModel : ModelWrapper where
  type := "tree"
  model := fun _ => .ok [0]
  params := Json.obj [("max_depth", Json.int 3)]
  metrics := Json.obj [("accuracy", Json.rat (95 / 100 : Rat))]

/-- A concrete bundle whose classifier answers an index outside the
enumeration. -/
def brokenModel : ModelWrapper where
  type := "svm"
  model := fun _ => .ok [5]
  params := Json.obj []
  metrics := Json.obj []

/-- A concrete request. -/
def demoRequest : Request where
  method := "POST"
  url := "http://localhost:8000/models/tree"

/-- A concrete payload. -/
def demoPayload : PredictPayload where
  sepal_length := (51 / 10 : Rat)
  sepal_width := (35 / 10 : Rat)
  petal_length := (14 / 10 : Rat)
  petal_width := (2 / 10 : Rat)

/-! ## Claims -/

/-- **C2.** For every model type absent from the registry,
`POST /models/{type}` returns an envelope (never a raised server error)
with message `"Model not found"`, status-code 400, and no `data` field. -/
theorem C2_absent_type_bad_request (registry : List ModelWrapper)
    (request : Request) (type : String) (payload : PredictPayload) (now : String)
    (habs : ∀ m ∈ registry, m.type ≠ type) :
    ∃ env, predictEndpoint registry request type payload now = .ok env ∧
      lookupKey env "message" = some (Json.str "Model not found") ∧
      lookupKey env "status-code" = some (Json.int 400) ∧
      lookupKey env "data" = none := by
  have hfind : findModel registry type = none := by
    unfold findModel
    rw [List.find?_eq_none]
    intro m hm
    simpa using habs m hm
  refine ⟨[("message", Json.str "Model not found"), ("method", Json.str request.method),
    ("status-code", Json.int 400), ("timestamp", Json.str now),
    ("url", Json.str request.url)], ?_, ?_, ?_, ?_⟩
  · unfold predictEndpoint construct_response _predict
    rw [hfind]
    rfl
  · simp [lookupKey]
  · simp [lookupKey]
  · simp [lookupKey]

/-- Closed witness for C2: a registry holding only the `"tree"` bundle has no
`"knn"` bundle, and the endpoint answers 400 / "Model not found". -/
theorem C2_witness :
    ∃ env, predictEndpoint [demoModel] demoRequest "knn" demoPayload "t0" = .ok env ∧
      lookupKey env "message" = some (Json.str "Model not found") ∧
      lookupKey env "status-code" = some (Json.int 400) ∧
      lookupKey env "data" = none :=
  C2_absent_type_bad_request [demoModel] demoRequest "knn" demoPayload "t0"
    (by intro m hm; simp at hm; subst hm; simp [demoModel])

/-- **C7.** Lookup by type is a first-match linear scan: on a registry
`pre ++ w :: post` where nothing in `pre` matches and `w` does, it returns
`w` (even when `post` holds bundles of the same type); on a registry with
no match it returns the not-found signal `none`; any returned bundle is a
member of the registry carrying the requested type.  It is a total
function, so it never raises. -/
theorem C7_find_first_match (type : String) :
    (∀ (pre post : List ModelWrapper) (w : ModelWrapper),
      (∀ m ∈ pre, m.type ≠ type) → w.type = type →
      findModel (pre ++ w :: post) type = some w) ∧
    (∀ registry : List ModelWrapper,
      (∀ m ∈ registry, m.type ≠ type) → findModel registry type = none) ∧
    (∀ (registry : List ModelWrapper) (m : ModelWrapper),
      findModel registry type = some m → m ∈ registry ∧ m.type = type) := by
  refine ⟨?_, ?_, ?_⟩
  · intro pre post w hpre hw
    unfold findModel
    induction pre with
    | nil => simp [List.find?, hw]
    | cons a as ih =>
      have ha : ¬(a.type == type) = true := by
        simpa using hpre a (by simp)
      simp only [List.cons_append, List.find?]
      rw [Bool.of_not_eq_true ha]
      exact ih (fun m hm => hpre m (by simp [hm]))
  · intro registry habs
    unfold findModel
    rw [List.find?_eq_none]
    intro m hm
    simpa using habs m hm
  · intro registry m hfind
    unfold findModel at hfind
    exact ⟨List.mem_of_find?_eq_some hfind, by simpa using List.find?_some hfind⟩

/-- **C3.** `GET /models` returns, for every registry state, status OK and a
data array with exactly one entry per loaded bundle, in load order; each
entry is the `{type, parameters, accuracy}` projection of its bundle
(`params` mapped to `parameters`, `metrics` mapped to `accuracy`) and its
keys never include the raw `model` object; this holds for the empty
registry as well. -/
theorem C3_models_list_projection (registry : List ModelWrapper)
    (request : Request) (now : String) :
    ∃ env, modelsEndpoint registry request now = .ok env ∧
      lookupKey env "status-code" = some (Json.int 200) ∧
      lookupKey env "message" = some (Json.str "OK") ∧
      ∃ entries, lookupKey env "data" = some (Json.arr entries) ∧
        entries.length = registry.length ∧
        (∀ (i : Nat) (m : ModelWrapper), registry[i]? = some m →
          entries[i]? = some (Json.obj [
            ("type", Json.str m.type),
            ("parameters", m.params),
            ("accuracy", m.metrics)])) ∧
        (∀ e ∈ entries, ∃ fields, e = Json.obj fields ∧
          keysOf fields = ["type", "parameters", "accuracy"]) := by
  refine ⟨[("message", Json.str "OK"), ("method", Json.str request.method),
    ("status-code", Json.int 200), ("timestamp", Json.str now),
    ("url", Json.str request.url), ("data", Json.arr (registry.map projectModel))],
    ?_, ?_, ?_, registry.map projectModel, ?_, ?_, ?_, ?_⟩
  · unfold modelsEndpoint construct_response _get_models_list
    rfl
  · simp [lookupKey]
  · simp [lookupKey]
  · simp [lookupKey]
  · simp
  · intro i m hm
    simp [List.getElem?_map, hm, projectModel]
  · intro e he
    obtain ⟨m, _, rfl⟩ := List.mem_map.mp he
    exact ⟨_, rfl, rfl⟩

/-- Closed witness for C7: with a registry `svm, tree, tree`, lookup of
`"tree"` skips the non-matching head and returns the earliest-loaded of the
two `"tree"` bundles. -/
theorem C7_witness :
    findModel ([brokenModel] ++ demoModel :: [demoModel]) "tree" = some demoModel :=
  (C7_find_first_match "tree").1 [brokenModel] [demoModel] demoModel
    (by intro m hm; simp at hm; subst hm; simp [brokenModel]) rfl

/-- Closed witness for C3: the projection of a one-bundle registry. -/
theorem C3_witness :
    ∃ env, modelsEndpoint [demoModel] demoRequest "t0" = .ok env ∧
      lookupKey env "status-code" = some (Json.int 200) ∧
      lookupKey env "message" = some (Json.str "OK") ∧
      ∃ entries, lookupKey env "data" = some (Json.arr entries) ∧
        entries.length = [demoModel].length ∧
        (∀ (i : Nat) (m : ModelWrapper), [demoModel][i]? = some m →
          entries[i]? = some (Json.obj [
            ("type", Json.str m.type),
            ("parameters", m.params),
            ("accuracy", m.metrics)])) ∧
        (∀ e ∈ entries, ∃ fields, e = Json.obj fields ∧
          keysOf fields = ["type", "parameters", "accuracy"]) :=
  C3_models_list_projection [demoModel] demoRequest "t0"

/-- **C4.** Every endpoint is `construct_response` applied to its handler, so
for every request: whenever the handler body returns a result (rather than
raising), the envelope's keys are exactly `message`, `method`,
`status-code`, `timestamp`, `url`, with `data` appended exactly when the
handler's result carries a `data` entry; the `method` field equals the
request's HTTP method and the `url` field equals the request's URL. -/
theorem C4_envelope_shape (f : Request → Except PyError HandlerOutput)
    (request : Request) (now : String) (results : HandlerOutput)
    (h : f request = .ok results) :
    ∃ env, construct_response f request now = .ok env ∧
      keysOf env = ["message", "method", "status-code", "timestamp", "url"] ++
        (match results.data with | some _ => ["data"] | none => []) ∧
      lookupKey env "method" = some (Json.str request.method) ∧
      lookupKey env "url" = some (Json.str request.url) ∧
      lookupKey env "timestamp" = some (Json.str now) ∧
      lookupKey env "message" = some (Json.str results.message) ∧
      lookupKey env "status-code" = some (Json.int results.statusCode) ∧
      lookupKey env "data" = results.data := by
  cases hd : results.data with
  | none =>
    refine ⟨[("message", Json.str results.message), ("method", Json.str request.method),
      ("status-code", Json.int results.statusCode), ("timestamp", Json.str now),
      ("url", Json.str request.url)], ?_, ?_, ?_, ?_, ?_, ?_, ?_, ?_⟩
    · unfold construct_response
      rw [h]
      simp only [hd]
    all_goals simp [lookupKey, keysOf, hd]
  | some d =>
    refine ⟨[("message", Json.str results.message), ("method", Json.str request.method),
      ("status-code", Json.int results.statusCode), ("timestamp", Json.str now),
      ("url", Json.str request.url), ("data", d)], ?_, ?_, ?_, ?_, ?_, ?_, ?_, ?_⟩
    · unfold construct_response
      rw [h]
      simp only [hd]
      rfl
    all_goals simp [lookupKey, keysOf, hd]

/-- Closed witness for C4: the root endpoint's handler on a concrete request. -/
theorem C4_witness :
    ∃ env, construct_response _index demoRequest "t0" = .ok env ∧
      keysOf env = ["message", "method", "status-code", "timestamp", "url"] ++
        (match (HandlerOutput.mk "OK" 200 (some (Json.obj
          [("message", Json.str "Welcome to IRIS classifier! Please, read the `/docs`!")]))).data
         with | some _ => ["data"] | none => []) ∧
      lookupKey env "method" = some (Json.str demoRequest.method) ∧
      lookupKey env "url" = some (Json.str demoRequest.url) ∧
      lookupKey env "timestamp" = some (Json.str "t0") ∧
      lookupKey env "message" = some (Json.str "OK") ∧
      lookupKey env "status-code" = some (Json.int 200) ∧
      lookupKey env "data" = some (Json.obj
        [("message", Json.str "Welcome to IRIS classifier! Please, read the `/docs`!")]) :=
  C4_envelope_shape _index demoRequest "t0" _ rfl

/-- **C1.** For a model type present in the registry (the lookup finds a
bundle) whose classifier behaves as a classifier on the given features —
it returns a non-empty output whose first entry lies in the `IrisType`
enumeration — `POST /models/{type}` returns status OK with data carrying
the bundle's type, the echoed features, the integer prediction index, and
a `predicted_type` drawn from the fixed species-label enumeration. -/
theorem C1_predict_ok (registry : List ModelWrapper) (request : Request)
    (type : String) (payload : PredictPayload) (now : String)
    (w : ModelWrapper) (p : Int) (rest : List Int) (s : String)
    (hfind : findModel registry type = some w)
    (hpred : w.model (featuresOf payload) = .ok (p :: rest))
    (hname : irisTypeName p = some s) :
    ∃ env, predictEndpoint registry request type payload now = .ok env ∧
      lookupKey env "status-code" = some (Json.int 200) ∧
      lookupKey env "message" = some (Json.str "OK") ∧
      lookupKey env "data" = some (Json.obj [
        ("model-type", Json.str w.type),
        ("features", featuresEcho payload),
        ("prediction", Json.int p),
        ("predicted_type", Json.str s)]) ∧
      s ∈ irisLabels := by
  refine ⟨[("message", Json.str "OK"), ("method", Json.str request.method),
    ("status-code", Json.int 200), ("timestamp", Json.str now),
    ("url", Json.str request.url),
    ("data", Json.obj [
      ("model-type", Json.str w.type),
      ("features", featuresEcho payload),
      ("prediction", Json.int p),
      ("predicted_type", Json.str s)])], ?_, ?_, ?_, ?_, ?_⟩
  · unfold predictEndpoint construct_response _predict
    simp only [hfind, hpred, hname]
    rfl
  · simp [lookupKey]
  · simp [lookupKey]
  · simp [lookupKey]
  · exact irisTypeName_mem_irisLabels hname

/-- Closed witness for C1: the `"tree"` bundle classifies the demo payload as
class 0, `"setosa"`. -/
theorem C1_witness :
    ∃ env, predictEndpoint [demoModel] demoRequest "tree" demoPayload "t0" = .ok env ∧
      lookupKey env "status-code" = some (Json.int 200) ∧
      lookupKey env "message" = some (Json.str "OK") ∧
      lookupKey env "data" = some (Json.obj [
        ("model-type", Json.str demoModel.type),
        ("features", featuresEcho demoPayload),
        ("prediction", Json.int 0),
        ("predicted_type", Json.str "setosa")]) ∧
      "setosa" ∈ irisLabels :=
  C1_predict_ok [demoModel] demoRequest "tree" demoPayload "t0" demoModel 0 [] "setosa"
    rfl rfl rfl

/-- **C9.** In every successful predict response — whenever the endpoint
returns an envelope whose `data` field is present — the `features` object
inside `data` is an exact echo of the request payload: its four fields are
the input values, unchanged. -/
theorem C9_features_exact_echo (registry : List ModelWrapper) (request : Request)
    (type : String) (payload : PredictPayload) (now : String)
    (env : List (String × Json)) (d : Json)
    (hok : predictEndpoint registry request type payload now = .ok env)
    (hdata : lookupKey env "data" = some d) :
    ∃ fields, d = Json.obj fields ∧
      lookupKey fields "features" = some (Json.obj [
        ("sepal_length", Json.rat payload.sepal_length),
        ("sepal_width", Json.rat payload.sepal_width),
        ("petal_length", Json.rat payload.petal_length),
        ("petal_width", Json.rat payload.petal_width)]) := by
  unfold predictEndpoint construct_response _predict at hok
  cases hfind : findModel registry type with
  | none =>
    simp only [hfind] at hok
    obtain rfl : _ = env := by simpa using hok
    simp [lookupKey] at hdata
  | some w =>
    cases hm : w.model (featuresOf payload) with
    | error e => simp [hfind, hm] at hok
    | ok prediction =>
      cases prediction with
      | nil => simp [hfind, hm] at hok
      | cons p rest =>
        cases hn : irisTypeName p with
        | none => simp [hfind, hm, hn] at hok
        | some s =>
          simp only [hfind, hm, hn] at hok
          obtain rfl : _ = env := by simpa using hok
          simp only [lookupKey] at hdata
          refine ⟨[("model-type", Json.str w.type), ("features", featuresEcho payload),
            ("prediction", Json.int p), ("predicted_type", Json.str s)], ?_, ?_⟩
          · simpa using hdata.symm
          · simp [lookupKey, featuresEcho]

/-- Closed witness for C9: instantiated at the demo bundle and payload. -/
theorem C9_witness :
    ∃ fields, Json.obj [("model-type", Json.str demoModel.type),
        ("features", featuresEcho demoPayload),
        ("prediction", Json.int 0), ("predicted_type", Json.str "setosa")] =
          Json.obj fields ∧
      lookupKey fields "features" = some (Json.obj [
        ("sepal_length", Json.rat demoPayload.sepal_length),
        ("sepal_width", Json.rat demoPayload.sepal_width),
        ("petal_length", Json.rat demoPayload.petal_length),
        ("petal_width", Json.rat demoPayload.petal_width)]) :=
  C9_features_exact_echo [demoModel] demoRequest "tree" demoPayload "t0" _ _ rfl rfl

/-- Extract a field of the `data` object from an endpoint outcome: `none`
when the handler raised, when `data` is absent, or when the field is
absent. -/
def dataField (r : Except PyError (List (String × Json))) (k : String) : Option Json :=
  match r with
  | .error _ => none
  | .ok env =>
    match lookupKey env "data" with
    | some (Json.obj fields) => lookupKey fields k
    | _ => none

/-- **C8.** Two predict calls with the same type and identical payload against
the same registry yield identical `prediction` and `predicted_type` values,
whatever the two requests' metadata and timestamps are: the handler's data
depends only on registry, type, and payload (model inference is a function
in the embedding, hence deterministic). -/
theorem C8_predict_idempotent (registry : List ModelWrapper)
    (type : String) (payload : PredictPayload)
    (req1 req2 : Request) (now1 now2 : String) :
    dataField (predictEndpoint registry req1 type payload now1) "prediction" =
      dataField (predictEndpoint registry req2 type payload now2) "prediction" ∧
    dataField (predictEndpoint registry req1 type payload now1) "predicted_type" =
      dataField (predictEndpoint registry req2 type payload now2) "predicted_type" := by
  constructor <;>
  · unfold dataField predictEndpoint construct_response _predict
    cases hfind : findModel registry type with
    | none => simp [lookupKey]
    | some w =>
      cases hm : w.model (featuresOf payload) with
      | error e => simp [hm]
      | ok prediction =>
        cases prediction with
        | nil => simp [hm]
        | cons p rest =>
          cases hn : irisTypeName p with
          | none => simp [hm, hn]
          | some s => simp [hm, hn, lookupKey]

/-- **C10.** When the lookup finds a bundle but inference fails — the
classifier's `predict` raises, or returns an empty output
(`prediction[0]` raises `IndexError`), or returns an index outside the
`IrisType` enumeration (`IrisType(...)` raises `ValueError`) — the
handler propagates an unhandled exception instead of returning an
envelope: there is no error boundary around the inference code. -/
theorem C10_inference_failure_raises (registry : List ModelWrapper)
    (request : Request) (type : String) (payload : PredictPayload) (now : String)
    (w : ModelWrapper)
    (hfind : findModel registry type = some w)
    (hbad : (∃ e, w.model (featuresOf payload) = .error e) ∨
            w.model (featuresOf payload) = .ok [] ∨
            (∃ p rest, w.model (featuresOf payload) = .ok (p :: rest) ∧
              irisTypeName p = none)) :
    ∃ e, predictEndpoint registry request type payload now = .error e := by
  rcases hbad with ⟨e, hm⟩ | hm | ⟨p, rest, hm, hn⟩
  · refine ⟨e, ?_⟩
    unfold predictEndpoint construct_response _predict
    simp only [hfind, hm]
  · refine ⟨.indexError, ?_⟩
    unfold predictEndpoint construct_response _predict
    simp only [hfind, hm]
  · refine ⟨.valueError, ?_⟩
    unfold predictEndpoint construct_response _predict
    simp only [hfind, hm, hn]

/-- Closed witness for C10: the `"svm"` bundle answers class index 5, outside
the enumeration, and the endpoint produces no envelope. -/
theorem C10_witness :
    ∃ e, predictEndpoint [brokenModel] demoRequest "svm" demoPayload "t0" = .error e :=
  C10_inference_failure_raises [brokenModel] demoRequest "svm" demoPayload "t0"
    brokenModel rfl (Or.inr (Or.inr ⟨5, [], rfl, rfl⟩))

/-- **C5.** The registry is populated exactly once, by the startup load, and
is read-only while serving: after a startup that produced registry `ws`,
serving any sequence of calls (`GET /`, `GET /models`, `POST /models/{type}`
in any order) leaves the registry exactly `ws` — no bundle added, removed,
or replaced — and the list becomes empty only at the shutdown `clear()`. -/
theorem C5_registry_read_only (files : List LoadResult) (ws : List ModelWrapper)
    (_hload : lifespanLoad [] files = .ok ws) (calls : List ApiCall) :
    (serveAll ws calls).1 = ws ∧
    lifespanClear (serveAll ws calls).1 = [] := by
  have h : ∀ (st : List ModelWrapper) (cs : List ApiCall), (serveAll st cs).1 = st := by
    intro st cs
    induction cs generalizing st with
    | nil => rfl
    | cons c cs ih => cases c <;> simp [serveAll, serveOne, ih]
  exact ⟨h ws calls, rfl⟩

/-- Closed witness for C5: one loaded bundle, one call of each endpoint. -/
theorem C5_witness :
    (serveAll [demoModel] [ApiCall.index demoRequest "t0",
      ApiCall.getModels demoRequest "t1",
      ApiCall.predict demoRequest "tree" demoPayload "t2"]).1 = [demoModel] ∧
    lifespanClear (serveAll [demoModel] [ApiCall.index demoRequest "t0",
      ApiCall.getModels demoRequest "t1",
      ApiCall.predict demoRequest "tree" demoPayload "t2"]).1 = [] :=
  C5_registry_read_only [Except.ok demoModel] [demoModel] rfl _

/-- **C6.** If any file handed to the startup loop fails to deserialize, the
load produces the propagated error — never a registry — so the process does
not start serving with a partial registry. -/
theorem C6_load_aborts_on_bad_file (st : List ModelWrapper) (files : List LoadResult)
    (hbad : ∃ f ∈ files, ∃ e, f = .error e) :
    ∃ e, lifespanLoad st files = .error e := by
  induction files generalizing st with
  | nil => exact absurd hbad (by simp)
  | cons f rest ih =>
    cases f with
    | error e0 => exact ⟨e0, rfl⟩
    | ok w =>
      refine ih (st ++ [w]) ?_
      obtain ⟨g, hg, e, hge⟩ := hbad
      rcases List.mem_cons.mp hg with h | h
      · rw [h] at hge
        exact absurd hge (by simp)
      · exact ⟨g, h, e, hge⟩

/-- Closed witness for C6: a good file followed by a corrupt one aborts the
load. -/
theorem C6_witness :
    ∃ e, lifespanLoad [] [Except.ok demoModel,
      Except.error "invalid load key"] = .error e :=
  C6_load_aborts_on_bad_file [] _
    ⟨Except.error "invalid load key", by simp, "invalid load key", rfl⟩

end IrisApi
